import Mathlib

/-!
Shallow embedding of `src/c_lib/src/stdsage.c`: the one-time empty-tuple
singleton, the startup sequencer `init_csage`, the per-module entry point
`init_csage_module`, and the NTL error-callback bridge
`global_NTL_error_callback`.

Process-wide C globals become fields of an explicit state record `CState`.
C pointers to strings become `Option String` (`none` is the null pointer);
the opaque `void*` context becomes `Option Nat`.  A call that can end in
`abort()` returns `Outcome`, whose `aborted` constructor carries the state
at the moment of abnormal termination — control never returns to the
caller on that path.  Every primitive also appends an `Event` to a trace
field, so ordering claims ("the handler is installed before the callback
is registered", "nothing runs after abort") can be stated as facts about
the trace.

Code of the repository that is not under `src/` (the `_CALLED_ONLY_ONCE`
macro from `stdsage.h`, and the `interrupt.h` collaborators
`set_sage_signal_handler_message`, `setup_sage_signal_handler`,
`setup_NTL_error_callback`) is modelled from the spec; each such
definition's doc comment says so.  `PyTuple_New` is the CPython allocator,
modelled as allocating a fresh tuple of the requested length on a heap of
tuples.
-/

/-- A `const char*`: `none` is the null pointer, `some s` a pointer to the
string `s`. -/
abbrev CStr := Option String

/-- An opaque `void*` context pointer: `none` is `NULL`. -/
abbrev CtxPtr := Option Nat

/-- Observable steps taken by the code, recorded in order. -/
inductive Event where
  | allocEmptyTuple
  | installHandler
  | registerNTLCallback
  | setMessage (s : CStr)
  | abortCalled
deriving DecidableEq, Repr

/-- A reference to a Python object on the tuple heap (its allocation index). -/
structure PyObjRef where
  id : Nat
deriving DecidableEq, Repr

/-- The process-wide state touched by `stdsage.c`. -/
structure CState where
  /-- Allocated tuples; the entry at index `i` is the length of tuple `i`. -/
  tupleHeap : List Nat
  /-- The C global `PyObject* global_empty_tuple` (`none` before assignment). -/
  global_empty_tuple : Option PyObjRef
  /-- The static flag of the once-only guard in `init_global_empty_tuple`. -/
  guard_called : Bool
  /-- The signal-handler message slot owned by the interrupt subsystem. -/
  signal_message : CStr
  /-- Whether `setup_sage_signal_handler` has run. -/
  handler_installed : Bool
  /-- `some ctx` once `global_NTL_error_callback` is registered with NTL with
  context `ctx`. -/
  ntl_callback_ctx : Option CtxPtr
  /-- The events performed so far, oldest first. -/
  trace : List Event
deriving DecidableEq, Repr

/-- The process state before any initialization ran. -/
def initialState : CState :=
  { tupleHeap := []
    global_empty_tuple := none
    guard_called := false
    signal_message := none
    handler_installed := false
    ntl_callback_ctx := none
    trace := [] }

/-- Append one observable event to the trace. -/
def pushEvent (e : Event) (st : CState) : CState :=
  { st with trace := st.trace ++ [e] }

/-- Result of running a C function that may call `abort()`: either it
returns normally with a value, or the process terminates abnormally in the
state carried by `aborted` — on that path control never reaches the
caller. -/
inductive Outcome (α : Type) where
  | ok (a : α)
  | aborted (st : CState)
deriving DecidableEq, Repr

/-- `abort()`: trigger process abnormal termination.  Nothing after this
call executes. -/
def abort (st : CState) : Outcome CState :=
  .aborted (pushEvent .abortCalled st)

/-- The view of a test harness that intercepts abnormal termination: the
state at the end of the call, whether it returned or aborted. -/
def interceptAbort : Outcome CState → CState
  | .ok st => st
  | .aborted st => st

/-- `PyTuple_New n` (CPython allocator, external library): allocate a fresh
tuple of length `n` and return a reference to it. -/
def PyTuple_New (n : Nat) (st : CState) : CState × PyObjRef :=
  ({ st with tupleHeap := st.tupleHeap ++ [n] }, ⟨st.tupleHeap.length⟩)

/-- Modelled from the spec: the `_CALLED_ONLY_ONCE` once-only guard from
`stdsage.h`, which is not part of this fragment.  Spec 4.1: the guarded
action must execute exactly once; a second invocation "must fail loudly
(abort/assert) rather than silently re-running". -/
def CALLED_ONLY_ONCE (st : CState) : Outcome CState :=
  if st.guard_called then abort st
  else .ok { st with guard_called := true }

/-- Modelled from the spec: `set_sage_signal_handler_message` from
`interrupt.h` (not under `src/`); it "stores a string for later retrieval
by the recovery mechanism", overwriting any previous content. -/
def set_sage_signal_handler_message (s : CStr) (st : CState) : CState :=
  pushEvent (.setMessage s) { st with signal_message := s }

/-- Modelled from the spec: `setup_sage_signal_handler` from `interrupt.h`
(not under `src/`); it "installs the host recovery mechanism". -/
def setup_sage_signal_handler (st : CState) : CState :=
  pushEvent .installHandler { st with handler_installed := true }

/-- Modelled from the spec: `setup_NTL_error_callback` (not under `src/`);
it "registers 4.4 as the library's fatal-error handler".  The only callback
the fragment ever registers is `global_NTL_error_callback`, so we record
the registration together with its context argument. -/
def setup_NTL_error_callback (ctx : CtxPtr) (st : CState) : CState :=
  pushEvent .registerNTLCallback { st with ntl_callback_ctx := some ctx }

/-- `init_global_empty_tuple` from `stdsage.c`: run the once-only guard,
then allocate the empty tuple and store it in `global_empty_tuple`. -/
def init_global_empty_tuple (st : CState) : Outcome CState :=
  match CALLED_ONLY_ONCE st with
  | .aborted s => .aborted s
  | .ok st1 =>
    let p := PyTuple_New 0 st1
    .ok (pushEvent .allocEmptyTuple { p.1 with global_empty_tuple := some p.2 })

/-- `global_NTL_error_callback` from `stdsage.c`: hand the message pointer
to the signal subsystem, then `abort()`.  The `context` argument is
ignored. -/
def global_NTL_error_callback (s : CStr) (context : CtxPtr) (st : CState) :
    Outcome CState :=
  abort (set_sage_signal_handler_message s st)

/-- `init_csage` from `stdsage.c`: the startup sequencer — empty-tuple
singleton, then signal handler, then NTL callback registration (with a
`NULL` context). -/
def init_csage (st : CState) : Outcome CState :=
  match init_global_empty_tuple st with
  | .aborted s => .aborted s
  | .ok st1 =>
    .ok (setup_NTL_error_callback none (setup_sage_signal_handler st1))

/-- `init_csage_module` from `stdsage.c`: on Cygwin (`cygwin = true`, the
`__CYGWIN32__` branch) it re-runs `init_csage`; on every other platform its
body is empty. -/
def init_csage_module (cygwin : Bool) (st : CState) : Outcome CState :=
  if cygwin then init_csage st else .ok st

/-- The operations of the fragment (and of its modelled collaborators) that
can run after startup; used to express frame conditions "no later call
changes X". -/
inductive Op where
  | ntlError (s : CStr) (ctx : CtxPtr)
  | csageModule (cygwin : Bool)
  | setMessage (s : CStr)
  | setupHandler
  | setupNTL (ctx : CtxPtr)
  | initTuple
  | csage
deriving DecidableEq, Repr

/-- Run one operation on the state. -/
def runOp : Op → CState → Outcome CState
  | .ntlError s c, st => global_NTL_error_callback s c st
  | .csageModule b, st => init_csage_module b st
  | .setMessage s, st => .ok (set_sage_signal_handler_message s st)
  | .setupHandler, st => .ok (setup_sage_signal_handler st)
  | .setupNTL c, st => .ok (setup_NTL_error_callback c st)
  | .initTuple, st => init_global_empty_tuple st
  | .csage, st => init_csage st

/-- Run a list of operations, intercepting any abnormal termination (the
harness view). -/
def runOps (l : List Op) (st : CState) : CState :=
  l.foldl (fun s op => interceptAbort (runOp op s)) st

/-- The state after `init_csage` ran from the pristine process state. -/
def postInit : CState :=
  { tupleHeap := [0]
    global_empty_tuple := some ⟨0⟩
    guard_called := true
    signal_message := none
    handler_installed := true
    ntl_callback_ctx := some none
    trace := [.allocEmptyTuple, .installHandler, .registerNTLCallback] }

theorem init_csage_initialState : init_csage initialState = Outcome.ok postInit := rfl

/-! ## Characterizations of the initializers -/

/-- When the once-only guard has already fired, `init_global_empty_tuple`
aborts immediately, leaving the rest of the state untouched. -/
theorem init_tuple_of_guard (st : CState) (h : st.guard_called = true) :
    init_global_empty_tuple st = Outcome.aborted (pushEvent .abortCalled st) := by
  simp [init_global_empty_tuple, CALLED_ONLY_ONCE, h, abort]

/-- On its first call, `init_global_empty_tuple` sets the guard, allocates a
fresh length-zero tuple and stores the reference. -/
theorem init_tuple_of_not_guard (st : CState) (h : st.guard_called = false) :
    init_global_empty_tuple st =
      Outcome.ok { st with
        tupleHeap := st.tupleHeap ++ [0]
        global_empty_tuple := some ⟨st.tupleHeap.length⟩
        guard_called := true
        trace := st.trace ++ [Event.allocEmptyTuple] } := by
  simp [init_global_empty_tuple, CALLED_ONLY_ONCE, h, PyTuple_New, pushEvent]

/-- Inversion: a normal return from `init_global_empty_tuple` only happens on
the first call, and the result state is determined. -/
theorem init_tuple_ok_inv (st st' : CState)
    (h : init_global_empty_tuple st = Outcome.ok st') :
    st.guard_called = false ∧
    st' = { st with
      tupleHeap := st.tupleHeap ++ [0]
      global_empty_tuple := some ⟨st.tupleHeap.length⟩
      guard_called := true
      trace := st.trace ++ [Event.allocEmptyTuple] } := by
  by_cases hg : st.guard_called = true
  · rw [init_tuple_of_guard st hg] at h
    exact absurd h (by simp)
  · have hg' : st.guard_called = false := by simpa using hg
    rw [init_tuple_of_not_guard st hg'] at h
    exact ⟨hg', (Outcome.ok.inj h).symm⟩

/-- When the guard has already fired, the whole sequencer aborts before
touching anything. -/
theorem init_csage_of_guard (st : CState) (h : st.guard_called = true) :
    init_csage st = Outcome.aborted (pushEvent .abortCalled st) := by
  simp [init_csage, init_tuple_of_guard st h]

/-- On its first run, `init_csage` produces the fully initialized state. -/
theorem init_csage_of_not_guard (st : CState) (h : st.guard_called = false) :
    init_csage st =
      Outcome.ok { st with
        tupleHeap := st.tupleHeap ++ [0]
        global_empty_tuple := some ⟨st.tupleHeap.length⟩
        guard_called := true
        handler_installed := true
        ntl_callback_ctx := some none
        trace := st.trace ++
          [Event.allocEmptyTuple, Event.installHandler, Event.registerNTLCallback] } := by
  simp [init_csage, init_tuple_of_not_guard st h, setup_sage_signal_handler,
    setup_NTL_error_callback, pushEvent]

/-- Inversion: a normal return from `init_csage` only happens on the first
run, and the result state is determined. -/
theorem init_csage_ok_inv (st st' : CState) (h : init_csage st = Outcome.ok st') :
    st.guard_called = false ∧
    st' = { st with
      tupleHeap := st.tupleHeap ++ [0]
      global_empty_tuple := some ⟨st.tupleHeap.length⟩
      guard_called := true
      handler_installed := true
      ntl_callback_ctx := some none
      trace := st.trace ++
        [Event.allocEmptyTuple, Event.installHandler, Event.registerNTLCallback] } := by
  by_cases hg : st.guard_called = true
  · rw [init_csage_of_guard st hg] at h
    exact absurd h (by simp)
  · have hg' : st.guard_called = false := by simpa using hg
    rw [init_csage_of_not_guard st hg'] at h
    exact ⟨hg', (Outcome.ok.inj h).symm⟩

/-! ## Frame lemmas: once the guard is set, no later operation moves the
singleton or the tuple heap -/

/-- One post-startup operation neither reassigns `global_empty_tuple` nor
mutates the tuple heap, and leaves the guard set. -/
theorem runOp_frame (op : Op) (st : CState) (h : st.guard_called = true) :
    (interceptAbort (runOp op st)).global_empty_tuple = st.global_empty_tuple ∧
    (interceptAbort (runOp op st)).tupleHeap = st.tupleHeap ∧
    (interceptAbort (runOp op st)).guard_called = true := by
  cases op with
  | ntlError s c =>
    simp [runOp, global_NTL_error_callback, abort, set_sage_signal_handler_message,
      pushEvent, interceptAbort, h]
  | csageModule b =>
    cases b with
    | false => simp [runOp, init_csage_module, interceptAbort, h]
    | true =>
      simp [runOp, init_csage_module, init_csage_of_guard st h, interceptAbort,
        pushEvent, h]
  | setMessage s =>
    simp [runOp, set_sage_signal_handler_message, pushEvent, interceptAbort, h]
  | setupHandler =>
    simp [runOp, setup_sage_signal_handler, pushEvent, interceptAbort, h]
  | setupNTL c =>
    simp [runOp, setup_NTL_error_callback, pushEvent, interceptAbort, h]
  | initTuple =>
    simp [runOp, init_tuple_of_guard st h, interceptAbort, pushEvent, h]
  | csage =>
    simp [runOp, init_csage_of_guard st h, interceptAbort, pushEvent, h]

/-- Any sequence of post-startup operations neither reassigns
`global_empty_tuple` nor mutates the tuple heap. -/
theorem runOps_frame (l : List Op) (st : CState) (h : st.guard_called = true) :
    (runOps l st).global_empty_tuple = st.global_empty_tuple ∧
    (runOps l st).tupleHeap = st.tupleHeap ∧
    (runOps l st).guard_called = true := by
  induction l generalizing st with
  | nil => exact ⟨rfl, rfl, h⟩
  | cons op l ih =>
    have hstep := runOp_frame op st h
    have hrest := ih (interceptAbort (runOp op st)) hstep.2.2
    have hfold : runOps (op :: l) st = runOps l (interceptAbort (runOp op st)) := rfl
    rw [hfold]
    exact ⟨hrest.1.trans hstep.1, hrest.2.1.trans hstep.2.1, hrest.2.2⟩

/-! ## The claims -/

/-- Claim C1: for every message string `m`, invoking the error-callback
bridge `global_NTL_error_callback` with `m` stores exactly `m` in the
process-wide signal-handler message slot, overwriting any previous content
(last-writer-wins), and then unconditionally triggers process abnormal
termination; invoking it with "first" then "second" (termination
intercepted) leaves the slot containing "second" only. -/
theorem C1_callback_stores_message_last_writer_wins
    (m : String) (ctx ctx' : CtxPtr) (st : CState) :
    (∃ st', global_NTL_error_callback (some m) ctx st = Outcome.aborted st' ∧
        st'.signal_message = some m) ∧
    (interceptAbort (global_NTL_error_callback (some "second") ctx'
        (interceptAbort (global_NTL_error_callback (some "first") ctx
          st)))).signal_message = some "second" :=
  ⟨⟨_, rfl, rfl⟩, rfl⟩

/-- Claim C2: `init_csage` performs exactly three steps in fixed order —
construct the empty-tuple singleton, install the signal handler, register
the error-callback bridge — so the handler is installed before the bridge
can ever be invoked. -/
theorem C2_init_csage_three_steps_in_order (st : CState)
    (h : st.guard_called = false) :
    ∃ st', init_csage st = Outcome.ok st' ∧
      st'.trace = st.trace ++
        [Event.allocEmptyTuple, Event.installHandler, Event.registerNTLCallback] :=
  ⟨_, init_csage_of_not_guard st h, rfl⟩

/-- Witness for C2 at the pristine process state. -/
theorem C2_witness :
    init_csage initialState = Outcome.ok postInit ∧
    postInit.trace =
      [Event.allocEmptyTuple, Event.installHandler, Event.registerNTLCallback] := by
  obtain ⟨st', h1, h2⟩ := C2_init_csage_three_steps_in_order initialState rfl
  have hst : st' = postInit := Outcome.ok.inj (h1.symm.trans init_csage_initialState)
  subst hst
  exact ⟨h1, by simpa [initialState] using h2⟩

/-- Claim C3: calling `init_global_empty_tuple` a second time within the
same process fails loudly through the once-only guard rather than silently
re-running: it aborts without reallocating or reassigning the singleton. -/
theorem C3_second_init_fails_loudly (st st' : CState)
    (h : init_global_empty_tuple st = Outcome.ok st') :
    ∃ s, init_global_empty_tuple st' = Outcome.aborted s ∧
      s.global_empty_tuple = st'.global_empty_tuple ∧
      s.tupleHeap = st'.tupleHeap := by
  obtain ⟨-, rfl⟩ := init_tuple_ok_inv st st' h
  exact ⟨_, init_tuple_of_guard _ rfl, rfl, rfl⟩

/-- Witness for C3: the first call from the pristine state succeeds, the
second aborts with the singleton untouched. -/
theorem C3_witness :
    ∃ s, init_global_empty_tuple
        { tupleHeap := [0], global_empty_tuple := some ⟨0⟩, guard_called := true,
          signal_message := none, handler_installed := false,
          ntl_callback_ctx := none, trace := [Event.allocEmptyTuple] }
        = Outcome.aborted s ∧
      s.global_empty_tuple = some ⟨0⟩ ∧ s.tupleHeap = [0] := by
  have h := C3_second_init_fails_loudly initialState _ rfl
  exact h

/-- Claim C4: after `init_csage` completes, `global_empty_tuple` is
non-null and refers to a tuple of length zero, and no sequence of
subsequent operations reassigns it or mutates the tuple heap — every later
read observes the same instance. -/
theorem C4_singleton_nonnull_empty_stable (st st' : CState)
    (h : init_csage st = Outcome.ok st') :
    (∃ r, st'.global_empty_tuple = some r ∧ st'.tupleHeap[r.id]? = some 0) ∧
    ∀ ops : List Op,
      (runOps ops st').global_empty_tuple = st'.global_empty_tuple ∧
      (runOps ops st').tupleHeap = st'.tupleHeap := by
  obtain ⟨hg, rfl⟩ := init_csage_ok_inv st st' h
  refine ⟨⟨⟨st.tupleHeap.length⟩, rfl, ?_⟩,
    fun ops => ⟨(runOps_frame ops _ (by rfl)).1, (runOps_frame ops _ (by rfl)).2.1⟩⟩
  exact List.getElem?_concat_length st.tupleHeap 0

/-- Witness for C4 at the pristine process state, with a concrete sequence
of later operations. -/
theorem C4_witness :
    postInit.global_empty_tuple = some ⟨0⟩ ∧
    postInit.tupleHeap[0]? = some 0 ∧
    (runOps [Op.ntlError (some "overflow") none, Op.csageModule true]
        postInit).global_empty_tuple = postInit.global_empty_tuple ∧
    (runOps [Op.ntlError (some "overflow") none, Op.csageModule true]
        postInit).tupleHeap = postInit.tupleHeap := by
  have h := C4_singleton_nonnull_empty_stable initialState postInit
    init_csage_initialState
  exact ⟨rfl, rfl, (h.2 _).1, (h.2 _).2⟩

/-- Claim C5: on the Cygwin branch, where `init_csage_module` performs a
real re-init, calling it any number of times after startup leaves the
empty-tuple singleton and the tuple heap exactly as they were — the
double-initialization risk is stopped by the once-only guard. -/
theorem C5_cygwin_reinit_preserves_singleton (st : CState)
    (h : st.guard_called = true) (n : Nat) :
    (runOps (List.replicate n (Op.csageModule true)) st).global_empty_tuple
        = st.global_empty_tuple ∧
    (runOps (List.replicate n (Op.csageModule true)) st).tupleHeap
        = st.tupleHeap := by
  have hfr := runOps_frame (List.replicate n (Op.csageModule true)) st h
  exact ⟨hfr.1, hfr.2.1⟩

/-- Witness for C5: two Cygwin per-module calls after startup leave the
singleton in place. -/
theorem C5_witness :
    (runOps (List.replicate 2 (Op.csageModule true)) postInit).global_empty_tuple
        = some ⟨0⟩ ∧
    (runOps (List.replicate 2 (Op.csageModule true)) postInit).tupleHeap = [0] :=
  C5_cygwin_reinit_preserves_singleton postInit rfl 2

/-- Claim C6: on every platform other than Cygwin, `init_csage_module`
returns normally with the state unchanged — a no-op with no observable
effect. -/
theorem C6_non_cygwin_module_init_noop (st : CState) :
    init_csage_module false st = Outcome.ok st := rfl

/-- Claim C7: `global_NTL_error_callback` never returns to its caller: its
outcome is never `ok`, the last event it performs is the `abort` call, and
the write of the message into the slot happens before that call. -/
theorem C7_callback_never_returns (s : CStr) (ctx : CtxPtr) (st : CState) :
    (∀ st', global_NTL_error_callback s ctx st ≠ Outcome.ok st') ∧
    (interceptAbort (global_NTL_error_callback s ctx st)).trace
        = st.trace ++ [Event.setMessage s, Event.abortCalled] ∧
    (interceptAbort (global_NTL_error_callback s ctx st)).signal_message = s := by
  refine ⟨fun st' hcontra => Outcome.noConfusion hcontra, ?_, rfl⟩
  simp [global_NTL_error_callback, abort, set_sage_signal_handler_message,
    pushEvent, interceptAbort]

/-- Claim C8: the behaviour of `global_NTL_error_callback` does not depend
on its context pointer: for every message and any two context values
(including null), the entire outcome is identical. -/
theorem C8_callback_ignores_context (s : CStr) (ctx₁ ctx₂ : CtxPtr) (st : CState) :
    global_NTL_error_callback s ctx₁ st = global_NTL_error_callback s ctx₂ st :=
  rfl

/-- Claim C9: the once-only guard in `init_global_empty_tuple` runs before
the allocation and the assignment: when it fires, the call aborts with
`global_empty_tuple` and the tuple heap exactly as they were. -/
theorem C9_guard_fires_before_allocation (st : CState)
    (h : st.guard_called = true) :
    init_global_empty_tuple st = Outcome.aborted (pushEvent .abortCalled st) ∧
    (interceptAbort (init_global_empty_tuple st)).global_empty_tuple
        = st.global_empty_tuple ∧
    (interceptAbort (init_global_empty_tuple st)).tupleHeap = st.tupleHeap := by
  refine ⟨init_tuple_of_guard st h, ?_, ?_⟩ <;>
    rw [init_tuple_of_guard st h] <;> rfl

/-- Witness for C9 at the state reached right after startup. -/
theorem C9_witness :
    init_global_empty_tuple postInit = Outcome.aborted (pushEvent .abortCalled postInit) ∧
    (interceptAbort (init_global_empty_tuple postInit)).global_empty_tuple
        = some ⟨0⟩ ∧
    (interceptAbort (init_global_empty_tuple postInit)).tupleHeap = [0] :=
  C9_guard_fires_before_allocation postInit rfl

/-- Claim C10: `global_NTL_error_callback` forwards its message pointer to
`set_sage_signal_handler_message` unchanged — for every pointer value,
including the null pointer, the call is exactly the sink applied to that
pointer followed by `abort`. -/
theorem C10_callback_forwards_pointer_unchanged (s : CStr) (ctx : CtxPtr)
    (st : CState) :
    global_NTL_error_callback s ctx st =
      abort (set_sage_signal_handler_message s st) ∧
    (interceptAbort (global_NTL_error_callback none ctx st)).signal_message
        = none :=
  ⟨rfl, rfl⟩
